import Mathlib

/-!
Verification development for the notnews news-classification library.

The Python source is shallowly embedded: Python strings are List Char,
nullable values are Option, and calls that may raise are Except Unit.
External library functions (the NLTK tokenizer/stopwords/stemmer, the
scikit-learn vectorizer and classifier, json.loads, the provider API) are
abstracted as parameters, since they live outside the repository; the
repository's own control flow, string processing and error handling are
translated statement by statement from the source files named next to
each definition.  Definitions come first, all theorems follow.
-/

namespace NotNews

/-! Characters and strings: the Python str operations used by the source,
restricted to the ASCII fragment. -/

/-- Python str.lower restricted to ASCII: map A-Z to a-z, keep the rest. -/
def asciiLower (c : Char) : Char :=
  if 65 ≤ c.toNat ∧ c.toNat ≤ 90 then Char.ofNat (c.toNat + 32) else c

/-- Lowercase a whole string (Python s.lower on the ASCII fragment). -/
def lowerStr (s : List Char) : List Char := s.map asciiLower

/-- Python str.strip: drop whitespace from both ends. -/
def pyStrip (s : List Char) : List Char :=
  ((s.dropWhile Char.isWhitespace).reverse.dropWhile Char.isWhitespace).reverse

/-- Substring containment: does pat occur contiguously inside hay?  This is
what re.search with a fixed-word alternation pattern, and the Python
operator in on strings, decide. -/
def containsSub (hay pat : List Char) : Bool :=
  hay.tails.any (fun t => pat.isPrefixOf t)

/-- Python string.punctuation, the 32 ASCII punctuation characters. -/
def pyPunct : List Char :=
  ['!', '\x22', '#', '$', '%', '&', '\x27', '(', ')', '*', '+', ',', '-', '.',
   '/', ':', ';', '<', '=', '>', '?', '@', '[', '\\', ']', '^', '_', '\x60',
   '\x7b', '|', '\x7d', '~']

/-! Text normalizer, from src/notnews/utils.py clean_text (lines 61-100).
The same pipeline appears in src/notnews/normalizer.py clean_text; for
non-null string inputs both versions perform the identical statements. -/

/-- Python values that reach clean_text: None, a string, or a non-string
(represented by an integer, whose str() is its decimal rendering). -/
inductive PyVal where
  | null : PyVal
  | str : List Char → PyVal
  | intv : Nat → PyVal
deriving DecidableEq

/-- Python str() coercion. -/
def pyStr : PyVal → List Char
  | .null => ['N', 'o', 'n', 'e']
  | .str s => s
  | .intv n => (Nat.repr n).data

/-- Embeds the statement text = str(text) if text is not None else "" that
opens the try block of clean_text. -/
def strOrEmpty : PyVal → List Char
  | .null => []
  | v => pyStr v

/-- Embeds re.sub of one-or-more-digit runs by the empty string: deleting
every maximal digit run deletes exactly the digit characters. -/
def removeDigits (s : List Char) : List Char := s.filter (fun c => !c.isDigit)

/-- Embeds the list comprehension dropping string.punctuation characters. -/
def removePunct (s : List Char) : List Char := s.filter (fun c => !pyPunct.contains c)

/-- Working text after the three in-place reassignments of the try block of
clean_text (digits removed, lowercased, punctuation removed), the value the
local variable text holds when nltk is first consulted. -/
def cleanPre (v : PyVal) : List Char := removePunct (lowerStr (removeDigits (strOrEmpty v)))

/-- The external NLTK surface used by clean_text, with fallible calls:
nltk.word_tokenize, stopwords.words("english"), PorterStemmer().stem. -/
structure NLTKEnv where
  tokenize : List Char → Except Unit (List (List Char))
  stopwords : Except Unit (List (List Char))
  stem : List Char → Except Unit (List Char)

/-- An infallible NLTK surface, for stating the spec-side pipeline. -/
structure NLTK where
  tokenize : List Char → List (List Char)
  stopwords : List (List Char)
  stem : List Char → List Char

/-- View an infallible NLTK surface as a fallible one whose calls all
succeed. -/
def liftNLTK (e : NLTK) : NLTKEnv where
  tokenize := fun s => .ok (e.tokenize s)
  stopwords := .ok e.stopwords
  stem := fun t => .ok (e.stem t)

/-- Embeds the comprehension tokens filtered by the stopword list; the
stopword lookup runs once per token, so an empty token list never consults
(a possibly broken) stopword corpus, exactly as in the source. -/
def filterStop (sw : Except Unit (List (List Char))) :
    List (List Char) → Except Unit (List (List Char))
  | [] => .ok []
  | t :: ts =>
    match sw with
    | .error e => .error e
    | .ok l =>
      match filterStop sw ts with
      | .error e => .error e
      | .ok r => .ok (if l.contains t then r else t :: r)

/-- Embeds the comprehension stemming each token left to right. -/
def stemAll (stem : List Char → Except Unit (List Char)) :
    List (List Char) → Except Unit (List (List Char))
  | [] => .ok []
  | t :: ts =>
    match stem t with
    | .error e => .error e
    | .ok st =>
      match stemAll stem ts with
      | .error e => .error e
      | .ok r => .ok (st :: r)

/-- Embeds " ".join(stems). -/
def joinSpaces (l : List (List Char)) : List Char := List.intercalate [' '] l

/-- Embedding of clean_text from src/notnews/utils.py lines 61-100.  When
hasNLTK is false the basic branch runs (str, lower, strip digits, strip
punctuation).  Otherwise the try block runs; any failure of an external
call is caught by the except clause, which returns str(text) for the
current (already partially transformed) local text, never None. -/
def clean_text (hasNLTK : Bool) (env : NLTKEnv) (input : PyVal) : List Char :=
  if !hasNLTK then
    removePunct (removeDigits (lowerStr (pyStr input)))
  else
    let t3 := cleanPre input
    match env.tokenize t3 with
    | .error _ => t3
    | .ok toks =>
      match filterStop env.stopwords toks with
      | .error _ => t3
      | .ok kept =>
        match stemAll env.stem kept with
        | .error _ => t3
        | .ok stems => joinSpaces stems

/-- The normalization pipeline exactly as the specification words it:
remove digit runs, lowercase, remove punctuation, tokenize, drop stopwords,
Porter-stem, join with single spaces. -/
def specNormalize (e : NLTK) (s : List Char) : List Char :=
  joinSpaces
    (((e.tokenize (removePunct (lowerStr (removeDigits s)))).filter
        (fun t => !e.stopwords.contains t)).map e.stem)

/-- An NLTK surface whose tokenizer always raises (e.g. missing punkt
data), with working stopword and stemmer calls. -/
def envTokFail : NLTKEnv where
  tokenize := fun _ => .error ()
  stopwords := .ok []
  stem := fun t => .ok t

/-- An NLTK surface that tokenizes a text into the single token holding the
whole text, with empty stopword list and identity stemmer. -/
def envIdTok : NLTKEnv := liftNLTK ⟨fun s => [s], [], fun t => t⟩

/-! URL pattern matcher, from src/notnews/classifiers.py lines 27-44 and
157-180, and src/notnews/soft_news_url_cat.py with its _us / _uk
subclasses. -/

/-- Supported regions of URL_PATTERNS. -/
inductive Region where
  | us : Region
  | uk : Region
deriving DecidableEq

/-- Hard-news vocabulary of URL_PATTERNS (the us and uk hard_news regexes
are alternations of these fixed words; re.search for such an alternation
holds exactly when some word occurs as a substring).  The same two regexes
appear verbatim as the hard_lab class attributes of USSoftNewsURLCat and
UKSoftNewsURLCat. -/
def hardTerms : Region → List (List Char)
  | .us =>
    [("politi").data, ("usnews").data, ("world").data, ("national").data,
     ("state").data, ("elect").data, ("vote").data, ("govern").data,
     ("campaign").data, ("war").data, ("polic").data, ("econ").data,
     ("unemploy").data, ("racis").data, ("energy").data, ("abortion").data,
     ("educa").data, ("healthcare").data, ("immigration").data]
  | .uk =>
    [("politi").data, ("world").data, ("national").data, ("uk-news").data,
     ("scottish-news").data, ("news-eu").data, ("state").data, ("local").data,
     ("elect").data, ("vote").data, ("govern").data, ("campaign").data,
     ("war").data, ("polic").data, ("econ").data, ("unemploy").data,
     ("energy").data, ("educa").data, ("healthcare").data, ("immigration").data]

/-- Soft-news vocabulary of URL_PATTERNS, likewise shared with the
soft_lab class attributes of the legacy categorizer subclasses. -/
def softTerms : Region → List (List Char)
  | .us =>
    [("sport").data, ("entertainment").data, ("arts").data, ("fashion").data,
     ("style").data, ("lifestyle").data, ("leisure").data, ("celeb").data,
     ("movie").data, ("music").data, ("gossip").data, ("food").data,
     ("travel").data, ("horoscope").data, ("weather").data, ("gadget").data]
  | .uk =>
    [("sport").data, ("football").data, ("entertainment").data,
     ("culture").data, ("arts").data, ("fashion").data, ("style").data,
     ("lifestyle").data, ("life-style").data, ("leisure").data,
     ("celeb").data, ("movie").data, ("music").data, ("gossip").data,
     ("food").data, ("travel").data, ("horoscope").data, ("weather").data,
     ("gadget").data]

/-- Embeds re.search of an alternation-of-words pattern against a string:
true when some vocabulary word is a substring. -/
def regexSearch (terms : List (List Char)) (s : List Char) : Bool :=
  terms.any (fun t => containsSub s t)

/-- Embedding of the inner classify_url of classify_by_url,
src/notnews/classifiers.py lines 166-173: a null URL yields (None, None);
otherwise each flag is 1 on a regex match of the raw URL string and None
otherwise.  The source does not lowercase the URL and compiles its
patterns without re.IGNORECASE. -/
def classify_url (region : Region) (url : Option (List Char)) :
    Option Nat × Option Nat :=
  match url with
  | none => (none, none)
  | some u =>
    ((if regexSearch (hardTerms region) u then some 1 else none),
     (if regexSearch (softTerms region) u then some 1 else none))

/-- Embedding of one row of SoftNewsURLCategorizer.soft_news_url_cat,
src/notnews/soft_news_url_cat.py lines 62-69: the URL column is stripped
and lowercased into the working column, then is_soft_lab and is_hard_lab
search it; a null stays null through the str accessor and yields None for
both labels.  The pair is (soft_lab, hard_lab), in the column order the
source creates. -/
def soft_news_url_cat_row (region : Region) (url : Option (List Char)) :
    Option Nat × Option Nat :=
  match url with
  | none => (none, none)
  | some u =>
    ((if regexSearch (softTerms region) (lowerStr (pyStrip u)) then some 1 else none),
     (if regexSearch (hardTerms region) (lowerStr (pyStrip u)) then some 1 else none))

/-! Statistical prediction engine, from src/notnews/classifiers.py
predict_soft_news (lines 183-261) and predict_news_category (lines
264-350).  The fitted vectorizer and classifier are abstract fallible
functions; the DataFrame is reduced to its text column, a list of
nullable strings. -/

/-- The cleaned corpus predict_soft_news builds: clean_text for non-null
rows, the empty string for null rows.  Every row, null or not, contributes
an entry. -/
def cleanedTexts (env : NLTKEnv) (texts : List (Option (List Char))) :
    List (List Char) :=
  texts.map (fun t =>
    match t with
    | some s => clean_text true env (PyVal.str s)
    | none => [])

/-- Embedding of predict_soft_news, src/notnews/classifiers.py lines
208-261.  If no row has non-null text the function short-circuits with an
all-null column.  Otherwise the whole corpus (nulls as empty strings) is
vectorized OUTSIDE the try block, so a transform failure propagates as
Except.error; predict_proba runs inside the try block, and its failure is
caught, filling the column with nulls.  On success every row receives the
positive-class probability. -/
def predict_soft_news {Feat : Type} (vect : List (List Char) → Except Unit Feat)
    (probaF : Feat → Except Unit (List ℚ)) (env : NLTKEnv)
    (texts : List (Option (List Char))) : Except Unit (List (Option ℚ)) :=
  if texts.all (fun t => t.isNone) then .ok (texts.map (fun _ => none))
  else
    match vect (cleanedTexts env texts) with
    | .error e => .error e
    | .ok x =>
      match probaF x with
      | .error _ => .ok (texts.map (fun _ => none))
      | .ok probs => .ok (probs.map some)

/-- The fallback label "Other" of predict_news_category. -/
def otherLabel : List Char := ("Other").data

/-- MODEL_CONFIGS us soft_news_categories, the fixed soft subset of the
multi-class label set. -/
def softNewsCatUS : List (List Char) :=
  [("Arts").data, ("Books").data, ("Classifieds").data, ("Dining").data,
   ("Leisure").data, ("Obits").data, ("Other").data, ("Real Estate").data,
   ("Style").data, ("Travel").data]

/-- The prepared corpus of predict_news_category: strip, lowercase, null
rows as empty strings (the fillna step). -/
def preppedTexts (texts : List (Option (List Char))) : List (List Char) :=
  texts.map (fun t =>
    match t with
    | some s => lowerStr (pyStrip s)
    | none => [])

/-- Sum of the probabilities of the soft categories in one row of the
probability table (prob_df of the soft columns summed along the row). -/
def softSum (row : List (List Char × ℚ)) : ℚ :=
  ((row.filter (fun p => softNewsCatUS.contains p.1)).map (fun p => p.2)).sum

/-- Embedding of predict_news_category, src/notnews/classifiers.py lines
308-350.  Here transform, predict and predict_proba all run inside one
try block; any failure falls back to the documented constants: category
"Other" and probability 0.5 for every row. -/
def predict_news_category {Feat : Type}
    (vect : List (List Char) → Except Unit Feat)
    (predictLabels : Feat → Except Unit (List (List Char)))
    (probaF : Feat → Except Unit (List (List (List Char × ℚ))))
    (texts : List (Option (List Char))) :
    List (Option (List Char) × Option ℚ) :=
  if texts.all (fun t => t.isNone) then texts.map (fun _ => (none, none))
  else
    match vect (preppedTexts texts) with
    | .error _ => texts.map (fun _ => (some otherLabel, some (1/2 : ℚ)))
    | .ok x =>
      match predictLabels x with
      | .error _ => texts.map (fun _ => (some otherLabel, some (1/2 : ℚ)))
      | .ok yp =>
        match probaF x with
        | .error _ => texts.map (fun _ => (some otherLabel, some (1/2 : ℚ)))
        | .ok ypr => List.zipWith (fun l r => (some l, some (softSum r))) yp ypr

/-! LLM classification engine, from src/notnews/llm.py (the parser
_parse_llm_response lines 128-171 and _classify_with_claude lines
174-208) and src/notnews/llm_classifier.py (classify_dataframe lines
158-228, validate_api_key lines 127-135). -/

/-- JSON values, the possible results of json.loads. -/
inductive Json where
  | null : Json
  | bool : Bool → Json
  | num : ℚ → Json
  | str : List Char → Json
  | arr : List Json → Json
  | obj : List (List Char × Json) → Json

/-- External Python surface of the parser: json.loads on a string (may
raise json.JSONDecodeError, the error case), and float() applied to a
string (none models ValueError for a non-numeric string). -/
structure PyEnv where
  loads : List Char → Except Unit Json
  floatOfStr : List Char → Option ℚ

/-- Three backticks, the Markdown fence. -/
def fence : List Char := ['\x60', '\x60', '\x60']

/-- The opening fence with language tag json. -/
def fenceJson : List Char := fence ++ ['j', 's', 'o', 'n']

/-- Suffix after the first occurrence of sep (empty if sep is absent);
Python s.split(sep) index 1 up to the next separator is recovered from
this with beforeFirst. -/
def afterFirst (sep : List Char) : List Char → List Char
  | [] => []
  | c :: rest =>
    if sep.isPrefixOf (c :: rest) then List.drop sep.length (c :: rest)
    else afterFirst sep rest

/-- Prefix before the first occurrence of sep (the whole string if sep is
absent); Python s.split(sep) index 0. -/
def beforeFirst (sep : List Char) : List Char → List Char
  | [] => []
  | c :: rest =>
    if sep.isPrefixOf (c :: rest) then []
    else c :: beforeFirst sep rest

/-- Embeds the fence-stripping reassignment of response_text in
_parse_llm_response: the text between the first occurrence of three
backticks followed by json (or of bare three backticks) and the following
fence; the original text when no fence is present.  Note this REASSIGNS
response_text, so the later fallback search runs over this stripped text,
not the raw response. -/
def stripFence (s : List Char) : List Char :=
  if containsSub s fenceJson then beforeFirst fence (afterFirst fenceJson s)
  else if containsSub s fence then beforeFirst fence (afterFirst fence s)
  else s

/-- The JSON field names the parser requires. -/
def catKey : List Char := ("category").data

/-- The confidence field name. -/
def confKey : List Char := ("confidence").data

/-- The reasoning field name. -/
def reasKey : List Char := ("reasoning").data

/-- Python k in result for a JSON value: key membership for a dict,
substring for a string, element membership for a list, and TypeError
(the error case, NOT caught by the parser's except clause) for the
non-iterable values null, booleans and numbers. -/
def keyIn (k : List Char) : Json → Except Unit Bool
  | .obj fs => .ok (fs.any (fun p => decide (p.1 = k)))
  | .str s => .ok (containsSub s k)
  | .arr xs =>
    .ok (xs.any (fun x =>
      match x with
      | .str t => decide (t = k)
      | _ => false))
  | _ => .error ()

/-- Dictionary field lookup (keys of a loaded JSON object are unique). -/
def lookupField (k : List Char) (fs : List (List Char × Json)) : Json :=
  match fs.find? (fun p => decide (p.1 = k)) with
  | some p => p.2
  | none => .null

/-- Python result of the membership test value in categories for a dict of
string keys: strings compare against the keys, other hashable values are
simply absent, and unhashable values (lists, dicts) raise TypeError (the
error case, not caught by the parser). -/
def isKeyOf (cats : List (List Char)) : Json → Except Unit Bool
  | .str s => .ok (cats.any (fun k => decide (k = s)))
  | .arr _ => .error ()
  | .obj _ => .error ()
  | _ => .ok false

/-- Distinguishes Python float() failures: ValueError (caught by the
parser) from TypeError (uncaught). -/
inductive PyErr where
  | valueError : PyErr
  | typeError : PyErr
deriving DecidableEq

/-- Python float() on a JSON value: numbers pass through, booleans become
0 or 1, strings parse or raise ValueError, and None, lists and dicts
raise TypeError. -/
def pyFloat (env : PyEnv) : Json → Except PyErr ℚ
  | .num q => .ok q
  | .bool b => .ok (if b then 1 else 0)
  | .str s =>
    match env.floatOfStr s with
    | some q => .ok q
    | none => .error .valueError
  | _ => .error .typeError

/-- The parsed classification triple the engine produces. -/
structure LLMResult where
  category : Json
  confidence : ℚ
  reasoning : Json

/-- The fixed reasoning message of the parse fallback. -/
def failMsg : List Char := ("Failed to parse structured response").data

/-- Embeds the except branch of _parse_llm_response: scan the taxonomy
keys in declaration order for one whose lowercase form occurs in the
lowercased CURRENT response_text (which fence-stripping has already
reassigned); the Python expression category or first-key replaces both a
missing hit and an empty-string hit by the first key, and indexing the
first key of an empty taxonomy raises IndexError (the error case). -/
def fallbackResult (cats : List (List Char)) (body : List Char) :
    Except Unit LLMResult :=
  match cats.find? (fun k => containsSub (lowerStr body) (lowerStr k)) with
  | some k =>
    if k = [] then
      match cats with
      | [] => .error ()
      | k0 :: _ => .ok ⟨.str k0, 1/2, .str failMsg⟩
    else .ok ⟨.str k, 1/2, .str failMsg⟩
  | none =>
    match cats with
    | [] => .error ()
    | k0 :: _ => .ok ⟨.str k0, 1/2, .str failMsg⟩

/-- Embedding of _parse_llm_response, src/notnews/llm.py lines 128-171.
The try block strips an optional Markdown fence, parses JSON, checks the
three required fields, validates the category against the taxonomy and
coerces the confidence to float, clamping it into the unit interval; a
JSONDecodeError, ValueError or KeyError falls into the fallback branch,
while a TypeError (non-iterable parse result, string-indexed list or
string, unhashable category, float() of None or a container) is NOT in
the except tuple and propagates as Except.error. -/
def parseLLMResponse (env : PyEnv) (cats : List (List Char))
    (response : List Char) : Except Unit LLMResult :=
  let body := stripFence response
  match env.loads (pyStrip body) with
  | .error _ => fallbackResult cats body
  | .ok j =>
    match keyIn catKey j with
    | .error _ => .error ()
    | .ok false => fallbackResult cats body
    | .ok true =>
      match keyIn confKey j with
      | .error _ => .error ()
      | .ok false => fallbackResult cats body
      | .ok true =>
        match keyIn reasKey j with
        | .error _ => .error ()
        | .ok false => fallbackResult cats body
        | .ok true =>
          match j with
          | .obj fs =>
            match isKeyOf cats (lookupField catKey fs) with
            | .error _ => .error ()
            | .ok valid =>
              match (if valid then some (lookupField catKey fs)
                     else match cats with
                          | [] => none
                          | k0 :: _ => some (.str k0)) with
              | none => .error ()
              | some catVal =>
                match pyFloat env (lookupField confKey fs) with
                | .error .valueError => fallbackResult cats body
                | .error .typeError => .error ()
                | .ok q =>
                  .ok ⟨catVal, (if 0 ≤ q ∧ q ≤ 1 then q else min (max q 0) 1),
                       lookupField reasKey fs⟩
          | _ => .error ()

/-- The claim-side category formula of C6: the first taxonomy key whose
name occurs case-insensitively as a substring of the given text, else the
first declared key. -/
def specFallbackKey (cats : List (List Char)) (text : List Char) : List Char :=
  match cats.find? (fun k => containsSub (lowerStr text) (lowerStr k)) with
  | some k => k
  | none =>
    match cats with
    | [] => []
    | k0 :: _ => k0

/-- The default taxonomy keys of DEFAULT_CATEGORIES, in declaration
order. -/
def defaultCategoryKeys : List (List Char) :=
  [("hard_news").data, ("soft_news").data, ("opinion").data, ("feature").data]

/-- A Python surface whose json.loads always raises (as it does on any
non-JSON text) and whose float() on strings always raises ValueError. -/
def envLoadsFail : PyEnv where
  loads := fun _ => .error ()
  floatOfStr := fun _ => none

/-- The concrete provider response for the C6 counterexample: a taxonomy
key mentioned before a fenced non-JSON payload. -/
def respC6 : List Char := ("soft_news").data ++ fence ++ ("xyz").data ++ fence

/-- One provider-call attempt as _classify_with_claude observes it: a
response text, an exception whose message mentions rate_limit, or any
other exception. -/
inductive CallOutcome where
  | success : List Char → CallOutcome
  | rateLimit : CallOutcome
  | failure : CallOutcome

/-- Embedding of _classify_with_claude, src/notnews/llm.py lines 188-208,
over the sequence of outcomes successive provider calls would produce.
On a rate-limit exception the function sleeps one second and calls ITSELF,
so every further rate-limit outcome is retried again; the second
component counts the seconds slept.  The none result means every modeled
attempt was rate-limited and the code is still retrying. -/
def classifyWithClaude (env : PyEnv) (cats : List (List Char)) :
    List CallOutcome → Option (Except Unit LLMResult) × Nat
  | [] => (none, 0)
  | .success r :: _ => (some (parseLLMResponse env cats r), 0)
  | .failure :: _ => (some (.error ()), 0)
  | .rateLimit :: rest =>
    let p := classifyWithClaude env cats rest
    (p.1, p.2 + 1)

/-- The behavior claim C7 describes: retry exactly once after a rate-limit
signal, and treat a second rate-limit failure as an ordinary row-level
error instead of retrying again. -/
def classifyClaimRetryOnce (env : PyEnv) (cats : List (List Char)) :
    List CallOutcome → Option (Except Unit LLMResult)
  | [] => none
  | .success r :: _ => some (parseLLMResponse env cats r)
  | .failure :: _ => some (.error ())
  | .rateLimit :: rest =>
    match rest with
    | [] => none
    | .success r :: _ => some (parseLLMResponse env cats r)
    | .failure :: _ => some (.error ())
    | .rateLimit :: _ => some (.error ())

/-- A DataFrame as classify_dataframe sees it: whether the text column
exists, and per row the nullable text plus the passthrough columns. -/
structure LLMFrame (α : Type) where
  hasTextCol : Bool
  rows : List (Option (List Char) × α)

/-- Embeds validate_api_key of LLMNewsClassifier: an absent or empty
(falsy) key fails validation. -/
def validateApiKey (key : Option (List Char)) : Bool :=
  match key with
  | none => false
  | some s => !s.isEmpty

/-- Result of classify_dataframe: either the input frame unchanged (no
result columns added) or the rows each extended with the three new
llm_category / llm_confidence / llm_reasoning columns. -/
inductive LLMOutput (α : Type) where
  | unchanged : LLMFrame α → LLMOutput α
  | classified :
      List ((Option (List Char) × α) × (Option Json × Option ℚ × Option Json)) →
      LLMOutput α

/-- Embedding of LLMNewsClassifier.classify_dataframe,
src/notnews/llm_classifier.py lines 158-228.  A missing text column
raises; a failing API-key validation returns the frame unchanged, with no
result columns; otherwise the three result columns are created as None
and the loop fills them for each non-null row, leaving a row's results
None when its _classify_text call raises. -/
def classify_dataframe {α : Type} (classifyText : List Char → Except Unit LLMResult)
    (key : Option (List Char)) (df : LLMFrame α) : Except Unit (LLMOutput α) :=
  if !df.hasTextCol then .error ()
  else if !validateApiKey key then .ok (.unchanged df)
  else
    .ok (.classified (df.rows.map (fun r =>
      match r.1 with
      | none => (r, (none, none, none))
      | some t =>
        match classifyText t with
        | .ok res => (r, (some res.category, some res.confidence, some res.reasoning))
        | .error _ => (r, (none, none, none)))))

/-! Deserialization compatibility shims, from src/notnews/pred_soft_news.py:
load_model_data lines 55-100, _fix_isotonic_regression_compatibility lines
103-141, _fix_vectorizer_compatibility lines 144-186.  Objects are records
of optional attributes; the estimator, the threshold arrays and the
interpolation function are abstract types. -/

/-- Copy a source attribute onto a destination attribute exactly when the
source exists and the destination does not (the hasattr-and-not-hasattr
guard every shim uses). -/
def copyAttr {β : Type} (src dst : Option β) : Option β :=
  match src, dst with
  | some v, none => some v
  | _, _ => dst

/-- A deserialized per-class calibrator as the isotonic shim sees it:
the isinstance flag and the five optional attributes. -/
structure IsotonicObj (Arr : Type) where
  isIsotonic : Bool
  necessaryX : Option Arr
  necessaryY : Option Arr
  xThresholds : Option Arr
  yThresholds : Option Arr
  interpF : Option (Arr × Arr)

/-- Embedding of _fix_isotonic_regression_compatibility: rename the two
legacy threshold attributes, then rebuild the interpolation function from
the (possibly just renamed) thresholds when it is absent; a missing
sklearn or a non-isotonic object is left untouched (the try/except
ImportError and the isinstance guard). -/
def fixIsotonic {Arr : Type} (hasSklearn : Bool) (o : IsotonicObj Arr) :
    IsotonicObj Arr :=
  if !hasSklearn || !o.isIsotonic then o
  else
    let xt := copyAttr o.necessaryX o.xThresholds
    let yt := copyAttr o.necessaryY o.yThresholds
    { o with
      xThresholds := xt
      yThresholds := yt
      interpF :=
        match o.interpF, xt, yt with
        | none, some a, some b => some (a, b)
        | f, _, _ => f }

/-- One per-fold _CalibratedClassifier as load_model_data patches it. -/
structure CalClfObj (Est Arr : Type) where
  baseEstimator : Option Est
  estimator : Option Est
  calibratorsU : Option (List (IsotonicObj Arr))
  calibrators : Option (List (IsotonicObj Arr))

/-- Embedding of the per-fold patch inside load_model_data: alias the
legacy base_estimator to estimator, alias calibrators_ to calibrators,
then run the isotonic shim over each calibrator of the (possibly just
aliased) calibrators attribute. -/
def fixCalClf {Est Arr : Type} (hasSklearn : Bool) (c : CalClfObj Est Arr) :
    CalClfObj Est Arr :=
  { c with
    estimator := copyAttr c.baseEstimator c.estimator
    calibrators :=
      (copyAttr c.calibratorsU c.calibrators).map
        (fun l => l.map (fixIsotonic hasSklearn)) }

/-- The top-level deserialized model as load_model_data patches it. -/
structure CalModelObj (Est Arr : Type) where
  isCalibratedCV : Bool
  baseEstimator : Option Est
  estimator : Option Est
  calibratedClassifiers : Option (List (CalClfObj Est Arr))

/-- Embedding of the classifier patch block of load_model_data: under the
sklearn import guard and the CalibratedClassifierCV isinstance check,
alias the top-level base_estimator, then patch every per-fold calibrated
classifier. -/
def fixModel {Est Arr : Type} (hasSklearn : Bool) (m : CalModelObj Est Arr) :
    CalModelObj Est Arr :=
  if !hasSklearn || !m.isCalibratedCV then m
  else
    { m with
      estimator := copyAttr m.baseEstimator m.estimator
      calibratedClassifiers :=
        m.calibratedClassifiers.map (fun l => l.map (fixCalClf hasSklearn)) }

/-- The internal TfidfTransformer of a deserialized vectorizer, with the
four fitted attributes the shim may copy. -/
structure TransformerObj (Arr Vocab Norm : Type) where
  idf : Option Arr
  vocabulary : Option Vocab
  norm : Option Norm
  sublinearTf : Option Bool

/-- A deserialized TfidfVectorizer: the isinstance flag, its own four
attributes, and the optional internal transformer. -/
structure VectorizerObj (Arr Vocab Norm : Type) where
  isTfidfVectorizer : Bool
  idf : Option Arr
  vocabulary : Option Vocab
  norm : Option Norm
  sublinearTf : Option Bool
  inner : Option (TransformerObj Arr Vocab Norm)

/-- Embedding of _fix_vectorizer_compatibility: when sklearn is present,
the object is a TfidfVectorizer and it has an internal transformer, copy
each of the four fitted attributes from the vectorizer to the transformer
when the transformer lacks it. -/
def fixVectorizer {Arr Vocab Norm : Type} (hasSklearn : Bool)
    (v : VectorizerObj Arr Vocab Norm) : VectorizerObj Arr Vocab Norm :=
  if !hasSklearn || !v.isTfidfVectorizer then v
  else
    match v.inner with
    | none => v
    | some tr =>
      { v with
        inner := some
          { idf := copyAttr v.idf tr.idf
            vocabulary := copyAttr v.vocabulary tr.vocabulary
            norm := copyAttr v.norm tr.norm
            sublinearTf := copyAttr v.sublinearTf tr.sublinearTf } }

/-- Spec-side: a calibrator on which the isotonic shim has nothing to do
(expected attributes already present). -/
def isotonicComplete {Arr : Type} (o : IsotonicObj Arr) : Prop :=
  o.xThresholds.isSome ∧ o.yThresholds.isSome ∧ o.interpF.isSome

/-- Spec-side: a per-fold classifier on which the load shim has nothing to
do. -/
def calClfComplete {Est Arr : Type} (c : CalClfObj Est Arr) : Prop :=
  c.estimator.isSome ∧
    match c.calibrators with
    | none => c.calibratorsU = none
    | some l => ∀ i ∈ l, isotonicComplete i

/-- Spec-side: a model on which the load shim has nothing to do. -/
def modelComplete {Est Arr : Type} (m : CalModelObj Est Arr) : Prop :=
  m.estimator.isSome ∧
    match m.calibratedClassifiers with
    | none => True
    | some l => ∀ c ∈ l, calClfComplete c

/-- Spec-side: a transformer already carrying all four fitted
attributes. -/
def transformerComplete {Arr Vocab Norm : Type}
    (tr : TransformerObj Arr Vocab Norm) : Prop :=
  tr.idf.isSome ∧ tr.vocabulary.isSome ∧ tr.norm.isSome ∧ tr.sublinearTf.isSome

/-- A fully-shimmed isotonic calibrator: both threshold arrays and the
interpolation function are present. -/
def isoW : IsotonicObj Nat := ⟨true, none, none, some 0, some 0, some (0, 0)⟩

/-- A transformer already carrying all four fitted attributes. -/
def trW : TransformerObj Nat Nat Nat := ⟨some 0, some 0, some 0, some true⟩

/-- A vectorizer whose internal transformer is fully fitted. -/
def vectW : VectorizerObj Nat Nat Nat := ⟨true, none, none, none, none, some trW⟩

/-- A calibrated model already exposing the estimator attribute, with an
empty fold list. -/
def modelW : CalModelObj Nat Nat := ⟨true, none, some 0, some []⟩

/-! Helper lemmas. -/

theorem char_toNat_ofNat_valid {n : Nat} (h : n.isValidChar) : (Char.ofNat n).toNat = n := by
  unfold Char.ofNat
  rw [dif_pos h]
  rfl

theorem toNat_asciiLower_upper (c : Char) (h : 65 ≤ c.toNat ∧ c.toNat ≤ 90) :
    (asciiLower c).toNat = c.toNat + 32 := by
  unfold asciiLower
  rw [if_pos h]
  exact char_toNat_ofNat_valid (Or.inl (by omega))

theorem asciiLower_idem (c : Char) : asciiLower (asciiLower c) = asciiLower c := by
  by_cases h : 65 ≤ c.toNat ∧ c.toNat ≤ 90
  · have h2 := toNat_asciiLower_upper c h
    conv_lhs => rw [asciiLower, h2, if_neg (by omega)]
  · unfold asciiLower
    rw [if_neg h, if_neg h]

theorem not_whitespace_of_ge (d : Char) (hd : 65 ≤ d.toNat) : d.isWhitespace = false := by
  simp only [Char.isWhitespace, Bool.or_eq_false_iff, decide_eq_false_iff_not]
  refine ⟨⟨⟨?_, ?_⟩, ?_⟩, ?_⟩ <;>
    · rintro rfl
      exact absurd hd (by decide)

theorem whitespace_asciiLower (c : Char) :
    (asciiLower c).isWhitespace = c.isWhitespace := by
  by_cases h : 65 ≤ c.toNat ∧ c.toNat ≤ 90
  · have h2 := toNat_asciiLower_upper c h
    rw [not_whitespace_of_ge _ (by omega), not_whitespace_of_ge _ (by omega)]
  · unfold asciiLower
    rw [if_neg h]

theorem lowerStr_idem (s : List Char) : lowerStr (lowerStr s) = lowerStr s := by
  unfold lowerStr
  rw [List.map_map]
  exact List.map_congr_left (fun c _ => asciiLower_idem c)

theorem dropWhile_map_asciiLower (s : List Char) :
    (s.map asciiLower).dropWhile Char.isWhitespace =
      (s.dropWhile Char.isWhitespace).map asciiLower := by
  induction s with
  | nil => rfl
  | cons c cs ih =>
    simp only [List.map_cons, List.dropWhile_cons, whitespace_asciiLower]
    cases h : c.isWhitespace with
    | true => simpa [h] using ih
    | false => simp [h]

theorem pyStrip_lowerStr (s : List Char) :
    pyStrip (lowerStr s) = lowerStr (pyStrip s) := by
  unfold pyStrip lowerStr
  rw [dropWhile_map_asciiLower, ← List.map_reverse, dropWhile_map_asciiLower,
    ← List.map_reverse]

theorem filterStop_lift (l : List (List Char)) (ts : List (List Char)) :
    filterStop (.ok l) ts = .ok (ts.filter (fun t => !l.contains t)) := by
  induction ts with
  | nil => rfl
  | cons t ts ih =>
    simp only [filterStop, ih, List.filter_cons]
    cases h : l.contains t <;> simp [h]

theorem stemAll_lift (f : List Char → List Char) (ts : List (List Char)) :
    stemAll (fun t => .ok (f t)) ts = .ok (ts.map f) := by
  induction ts with
  | nil => rfl
  | cons t ts ih => simp only [stemAll, ih, List.map_cons]

/-! Claim theorems. -/

/-- C1.  For every non-null input string, clean_text (with NLTK present and
its calls succeeding) is exactly the spec pipeline: digits out, lowercase,
punctuation out, tokenize, stopwords out, stem, join with single spaces. -/
theorem claim_C1_clean_text_pipeline (e : NLTK) (s : List Char) :
    clean_text true (liftNLTK e) (PyVal.str s) = specNormalize e s := by
  unfold clean_text liftNLTK specNormalize cleanPre strOrEmpty pyStr
  simp only [Bool.not_true, Bool.false_eq_true, if_false, filterStop_lift, stemAll_lift]

/-- C8 counterexample.  On input "A.b" with a raising tokenizer, clean_text
returns "ab" (the digit-stripped, lowercased, punctuation-stripped working
text), not the original input "A.b": the except clause returns str(text)
for the already-reassigned local text. -/
theorem claim_C8_counterexample :
    clean_text true envTokFail (PyVal.str ['A', '.', 'b']) = ['a', 'b'] ∧
      (['a', 'b'] : List Char) ≠ ['A', '.', 'b'] := by
  exact ⟨by decide, by decide⟩

/-- C8 (amended).  clean_text is total (never raises): a null input yields
the empty string (whether the tokenizer call on the empty working text
fails or tokenizes it to no tokens), and on an internal failure the result
is the partially-normalized working text cleanPre, not the original
input. -/
theorem claim_C8_total_null_and_fallback (env : NLTKEnv) :
    ((env.tokenize [] = .error () ∨ env.tokenize [] = .ok []) →
      clean_text true env PyVal.null = []) ∧
    (∀ s : List Char, env.tokenize (cleanPre (PyVal.str s)) = .error () →
      clean_text true env (PyVal.str s) = cleanPre (PyVal.str s)) := by
  constructor
  · intro h
    have hpre : cleanPre PyVal.null = [] := rfl
    rcases h with h | h <;>
      simp [clean_text, hpre, h, filterStop, stemAll, joinSpaces, List.intercalate]
  · intro s h
    simp [clean_text, h]

/-- C8 witness: the amended theorem applied at the always-failing tokenizer
environment, to the null input and the concrete input "A.b". -/
theorem claim_C8_witness :
    clean_text true envTokFail PyVal.null = [] ∧
      clean_text true envTokFail (PyVal.str ['A', '.', 'b']) =
        cleanPre (PyVal.str ['A', '.', 'b']) :=
  ⟨(claim_C8_total_null_and_fallback envTokFail).1 (Or.inl rfl),
   (claim_C8_total_null_and_fallback envTokFail).2 ['A', '.', 'b'] rfl⟩

/-- C4.  For every non-null URL and supported region, classify_url returns
hard = 1 exactly when some hard-news vocabulary word is a substring of the
URL and None otherwise, and soft = 1 exactly when some soft-news word is a
substring and None otherwise; hence soft-only URLs give (None, 1),
hard-only give (1, None), both give (1, 1), neither gives (None, None),
and each flag only ever takes the values 1 or None, never 0 or False. -/
theorem claim_C4_classify_url_flags (region : Region) (u : List Char) :
    classify_url region (some u) =
      ((if ∃ t ∈ hardTerms region, containsSub u t then some 1 else none),
       (if ∃ t ∈ softTerms region, containsSub u t then some 1 else none)) := by
  unfold classify_url regexSearch
  simp only [List.any_eq_true]

/-- C5 counterexample.  classify_url is NOT invariant under lowercasing
the URL: the all-uppercase URL "SPORT" matches neither vocabulary (the
patterns are lowercase words compiled without re.IGNORECASE and the
source searches the raw URL), while its lowercase form matches the
soft-news vocabulary. -/
theorem claim_C5_counterexample :
    classify_url .us (some (['S', 'P', 'O', 'R', 'T'])) = (none, none) ∧
      classify_url .us (some (lowerStr ['S', 'P', 'O', 'R', 'T'])) =
        (none, some 1) := by
  exact ⟨by decide, by decide⟩

/-- C5 (amended).  The lowercase-invariance the claim states does hold for
the legacy path soft_news_url_cat, which strips and lowercases the URL
before matching: its output row is unchanged when the input URL is
lowercased.  (classify_by_url itself matches the raw URL
case-sensitively, as the counterexample shows.) -/
theorem claim_C5_legacy_lowercase_invariant (region : Region) (u : List Char) :
    soft_news_url_cat_row region (some u) =
      soft_news_url_cat_row region (some (lowerStr u)) := by
  show
    ((if regexSearch (softTerms region) (lowerStr (pyStrip u)) then some 1 else none),
     (if regexSearch (hardTerms region) (lowerStr (pyStrip u)) then some 1 else none)) =
    ((if regexSearch (softTerms region) (lowerStr (pyStrip (lowerStr u))) then some 1 else none),
     (if regexSearch (hardTerms region) (lowerStr (pyStrip (lowerStr u))) then some 1 else none))
  rw [pyStrip_lowerStr, lowerStr_idem]

/-- C2 counterexample.  A batch with one non-null row whose vectorizer
raises on transform makes predict_soft_news itself raise (Except.error):
the transform call sits outside the try block, so the exception
propagates to the caller instead of yielding a DataFrame with null result
columns. -/
theorem claim_C2_counterexample :
    predict_soft_news (fun _ => (Except.error () : Except Unit Unit))
      (fun _ => .ok []) envTokFail [some ['h']] = .error () := rfl

/-- C2 (amended).  The batch-level catch covers predict_proba in
predict_soft_news (failure fills the result column with nulls and the
call returns normally) and covers transform, predict and predict_proba
in predict_news_category (failure fills the columns with the documented
fallback constants Other and 0.5); but a transform failure in
predict_soft_news is outside the try block and propagates (see the
counterexample). -/
theorem claim_C2_batch_error_boundary {Feat Feat2 : Type}
    (vect : List (List Char) → Except Unit Feat)
    (probaF : Feat → Except Unit (List ℚ)) (env : NLTKEnv)
    (vect2 : List (List Char) → Except Unit Feat2)
    (pl : Feat2 → Except Unit (List (List Char)))
    (pp : Feat2 → Except Unit (List (List (List Char × ℚ))))
    (texts : List (Option (List Char)))
    (hne : texts.all (fun t => t.isNone) = false) :
    (∀ x, vect (cleanedTexts env texts) = .ok x → probaF x = .error () →
      predict_soft_news vect probaF env texts = .ok (texts.map (fun _ => none))) ∧
    (vect2 (preppedTexts texts) = .error () →
      predict_news_category vect2 pl pp texts =
        texts.map (fun _ => (some otherLabel, some (1/2 : ℚ)))) := by
  constructor
  · intro x hv hp
    simp [predict_soft_news, hne, hv, hp]
  · intro hv
    simp [predict_news_category, hne, hv]

/-- C2 witness: the amended theorem applied with a succeeding vectorizer
and failing classifier for predict_soft_news, and a failing vectorizer
for predict_news_category, on a one-row batch. -/
theorem claim_C2_witness :
    predict_soft_news (fun _ => (Except.ok () : Except Unit Unit))
        (fun _ => .error ()) envTokFail [some ['h']] = .ok [none] ∧
      predict_news_category (fun _ => (Except.error () : Except Unit Unit))
        (fun _ => .ok []) (fun _ => .ok []) [some ['h']] =
        [(some otherLabel, some (1/2 : ℚ))] := by
  have h := @claim_C2_batch_error_boundary Unit Unit
    (fun _ => .ok ()) (fun _ => .error ()) envTokFail (fun _ => .error ())
    (fun _ => .ok []) (fun _ => .ok []) [some ['h']] rfl
  exact ⟨h.1 () rfl rfl, h.2 rfl⟩

/-- C3 counterexample.  In the statistical path a null-text row is NOT
skipped: it is cleaned to the empty string, vectorized with the batch and
given the model's probability.  On the batch [some "x", null] with a
model returning probability 1 per row, the null row's result is some 1,
not null. -/
theorem claim_C3_counterexample :
    predict_soft_news (fun l => (Except.ok l.length : Except Unit Nat))
        (fun n => .ok (List.replicate n (1 : ℚ))) envIdTok
        [some ['x'], none] = .ok [some 1, some 1] ∧
      (some (1 : ℚ) ≠ (none : Option ℚ)) := by
  exact ⟨rfl, by decide⟩

/-- C3 (amended).  Null inputs yield all-null results with no model or
regex invocation in the URL path (both classify_by_url and the legacy
categorizer) and in the LLM path (the row loop skips null-text rows,
leaving their three result columns null); but in the statistical path the
whole batch, null rows included as empty strings, goes through the
vectorizer and classifier, and on success EVERY row receives a computed
probability. -/
theorem claim_C3_null_handling {Feat α : Type} (region : Region)
    (vect : List (List Char) → Except Unit Feat)
    (probaF : Feat → Except Unit (List ℚ)) (env : NLTKEnv)
    (texts : List (Option (List Char))) (x : Feat) (probs : List ℚ)
    (ct : List Char → Except Unit LLMResult) (key : Option (List Char))
    (df : LLMFrame α) :
    (classify_url region none = (none, none)) ∧
    (soft_news_url_cat_row region none = (none, none)) ∧
    (texts.all (fun t => t.isNone) = false →
      vect (cleanedTexts env texts) = .ok x → probaF x = .ok probs →
      predict_soft_news vect probaF env texts = .ok (probs.map some)) ∧
    (df.hasTextCol = true → validateApiKey key = true →
      ∀ (i : Nat) (r : Option (List Char) × α), df.rows[i]? = some r → r.1 = none →
        ∃ rs, classify_dataframe ct key df = .ok (.classified rs) ∧
          rs[i]? = some (r, (none, none, none))) := by
  refine ⟨rfl, rfl, ?_, ?_⟩
  · intro hne hv hp
    simp [predict_soft_news, hne, hv, hp]
  · intro h1 h2 i r hi hr
    refine ⟨df.rows.map (fun r =>
      match r.1 with
      | none => (r, (none, none, none))
      | some t =>
        match ct t with
        | .ok res => (r, (some res.category, some res.confidence, some res.reasoning))
        | .error _ => (r, (none, none, none))), ?_, ?_⟩
    · simp [classify_dataframe, h1, h2]
    · rw [List.getElem?_map, hi]
      simp [hr]

/-- C3 witness: the amended theorem applied to the two-row batch of the
counterexample for the statistical conjunct, and to a one-row frame whose
only row has null text for the LLM conjunct. -/
theorem claim_C3_witness :
    predict_soft_news (fun l => (Except.ok l.length : Except Unit Nat))
        (fun n => .ok (List.replicate n (1 : ℚ))) envIdTok
        [some ['x'], none] = .ok [some (1 : ℚ), some 1] ∧
      ∃ rs, classify_dataframe (fun _ => .error ()) (some ['k'])
          (⟨true, [(none, ())]⟩ : LLMFrame Unit) = .ok (.classified rs) ∧
        rs[0]? = some ((none, ()), (none, none, none)) := by
  have h := @claim_C3_null_handling Nat Unit Region.us
    (fun l => .ok l.length) (fun n => .ok (List.replicate n (1 : ℚ))) envIdTok
    [some ['x'], none] 2 [1, 1] (fun _ => .error ()) (some ['k'])
    ⟨true, [(none, ())]⟩
  exact ⟨h.2.2.1 rfl rfl rfl, h.2.2.2 rfl rfl 0 (none, ()) rfl rfl⟩

/-- Helper: with a non-empty taxonomy of non-empty keys, the except-branch
of the parser returns exactly the spec-side fallback key with confidence
one half and the fixed message. -/
theorem fallbackResult_eq (cats : List (List Char)) (body : List Char)
    (hne : cats ≠ []) (hkeys : ∀ k ∈ cats, k ≠ ([] : List Char)) :
    fallbackResult cats body =
      .ok ⟨.str (specFallbackKey cats body), 1/2, .str failMsg⟩ := by
  unfold fallbackResult specFallbackKey
  cases hf : cats.find? (fun k => containsSub (lowerStr body) (lowerStr k)) with
  | none =>
    cases cats with
    | nil => exact absurd rfl hne
    | cons k0 ks => rfl
  | some k =>
    have hk : k ∈ cats := List.mem_of_find?_eq_some hf
    simp [hkeys k hk]

/-- C6 counterexample.  On the response "soft_news```xyz```" (a taxonomy
key mentioned before a fenced non-JSON payload) the parser's fallback
searches the fence-STRIPPED text "xyz" and so falls back to the first key
hard_news, while the claim's formula (first key occurring in the RAW
response) picks soft_news. -/
theorem claim_C6_counterexample :
    parseLLMResponse envLoadsFail defaultCategoryKeys respC6 =
      .ok ⟨.str (("hard_news").data), 1/2, .str failMsg⟩ ∧
      specFallbackKey defaultCategoryKeys respC6 = ("soft_news").data ∧
      (("hard_news").data : List Char) ≠ ("soft_news").data := by
  exact ⟨rfl, rfl, by decide⟩

/-- C6 (amended).  For every response on which json.loads fails, and every
response parsing to a JSON object missing the confidence field, the parser
does not raise and returns confidence 0.5, the first taxonomy key whose
name occurs case-insensitively in the fence-STRIPPED response text (else
the first declared key; the taxonomy being non-empty with non-empty
keys), and the fixed failed-to-parse reasoning message. -/
theorem claim_C6_parse_fallback (env : PyEnv) (cats : List (List Char))
    (resp : List Char) (hne : cats ≠ [])
    (hkeys : ∀ k ∈ cats, k ≠ ([] : List Char))
    (h : env.loads (pyStrip (stripFence resp)) = .error () ∨
         ∃ fs, env.loads (pyStrip (stripFence resp)) = .ok (.obj fs) ∧
           fs.any (fun p => decide (p.1 = confKey)) = false) :
    parseLLMResponse env cats resp =
      .ok ⟨.str (specFallbackKey cats (stripFence resp)), 1/2, .str failMsg⟩ := by
  have hfb := fallbackResult_eq cats (stripFence resp) hne hkeys
  rcases h with h | ⟨fs, hok, hmiss⟩
  · simpa [parseLLMResponse, h] using hfb
  · simp only [parseLLMResponse, hok, keyIn]
    cases hc : fs.any (fun p => decide (p.1 = catKey)) with
    | false => simpa [hc] using hfb
    | true => simpa [hc, hmiss] using hfb

/-- C6 witness: the amended theorem applied to a plain non-JSON response
with the default taxonomy. -/
theorem claim_C6_witness :
    parseLLMResponse envLoadsFail defaultCategoryKeys (("not json").data) =
      .ok ⟨.str (specFallbackKey defaultCategoryKeys
          (stripFence (("not json").data))), 1/2, .str failMsg⟩ :=
  claim_C6_parse_fallback envLoadsFail defaultCategoryKeys (("not json").data)
    (by decide) (by decide) (Or.inl rfl)

/-- C7 counterexample.  With two consecutive rate-limit failures followed
by a success, the source retries BOTH rate limits (self-recursion) and
returns the parsed success after two one-second sleeps, whereas the
claimed retry-exactly-once behavior would have turned the second
rate-limit failure into a row-level error. -/
theorem claim_C7_counterexample :
    classifyWithClaude envLoadsFail defaultCategoryKeys
        [.rateLimit, .rateLimit, .success ['x']] =
      (some (.ok ⟨.str (("hard_news").data), 1/2, .str failMsg⟩), 2) ∧
      classifyClaimRetryOnce envLoadsFail defaultCategoryKeys
        [.rateLimit, .rateLimit, .success ['x']] = some (.error ()) := by
  exact ⟨rfl, rfl⟩

/-- C7 (amended).  Every rate-limit failure is retried after a fixed
one-second sleep, with no retry bound: n consecutive rate-limit signals
followed by a success yield the parsed success after n sleeps, and
followed by a non-rate-limit exception they yield a raised (row-level)
error after n sleeps. -/
theorem claim_C7_unbounded_retry (env : PyEnv) (cats : List (List Char))
    (r : List Char) (n : Nat) :
    classifyWithClaude env cats (List.replicate n .rateLimit ++ [.success r]) =
      (some (parseLLMResponse env cats r), n) ∧
    classifyWithClaude env cats (List.replicate n .rateLimit ++ [.failure]) =
      (some (.error ()), n) := by
  induction n with
  | zero => exact ⟨rfl, rfl⟩
  | succ n ih =>
    refine ⟨?_, ?_⟩ <;>
      simp [List.replicate_succ, classifyWithClaude, ih.1, ih.2]

/-- C10.  With the text column present, classify_dataframe returns the
frame UNCHANGED (no result columns, no exception) exactly when API-key
validation fails, and otherwise returns every original row extended with
the three llm result columns. -/
theorem claim_C10_api_key_gate {α : Type}
    (ct : List Char → Except Unit LLMResult) (key : Option (List Char))
    (df : LLMFrame α) (h : df.hasTextCol = true) :
    (validateApiKey key = false →
      classify_dataframe ct key df = .ok (.unchanged df)) ∧
    (validateApiKey key = true →
      ∃ rs, classify_dataframe ct key df = .ok (.classified rs) ∧
        rs.map Prod.fst = df.rows) := by
  constructor
  · intro hk
    simp [classify_dataframe, h, hk]
  · intro hk
    refine ⟨df.rows.map (fun r =>
      match r.1 with
      | none => (r, (none, none, none))
      | some t =>
        match ct t with
        | .ok res => (r, (some res.category, some res.confidence, some res.reasoning))
        | .error _ => (r, (none, none, none))), ?_, ?_⟩
    · simp [classify_dataframe, h, hk]
    · rw [List.map_map]
      conv_rhs => rw [← List.map_id df.rows]
      apply List.map_congr_left
      intro r _
      cases hr : r.1 with
      | none => simp [hr]
      | some t => cases hct : ct t <;> simp [hr, hct]

/-- C10 witness: the theorem applied to a one-row frame, once with no API
key (frame unchanged) and once with a key (columns added). -/
theorem claim_C10_witness :
    classify_dataframe (fun _ => .error ()) none
        (⟨true, [(none, ())]⟩ : LLMFrame Unit) =
        .ok (.unchanged ⟨true, [(none, ())]⟩) ∧
      ∃ rs, classify_dataframe (fun _ => .error ()) (some ['k'])
          (⟨true, [(none, ())]⟩ : LLMFrame Unit) = .ok (.classified rs) ∧
        rs.map Prod.fst = [(none, ())] :=
  ⟨(claim_C10_api_key_gate (fun _ => .error ()) none ⟨true, [(none, ())]⟩ rfl).1 rfl,
   (claim_C10_api_key_gate (fun _ => .error ()) (some ['k'])
      ⟨true, [(none, ())]⟩ rfl).2 rfl⟩

/-! Shim lemmas for C9. -/

theorem copyAttr_self_idem {β : Type} (s d : Option β) :
    copyAttr s (copyAttr s d) = copyAttr s d := by
  cases s <;> cases d <;> rfl

theorem copyAttr_some_dst {β : Type} (s : Option β) (v : β) :
    copyAttr s (some v) = some v := by
  cases s <;> rfl

theorem copyAttr_none_dst {β : Type} (s : Option β) : copyAttr s none = s := by
  cases s <;> rfl

theorem fixIsotonic_idem {Arr : Type} (hs : Bool) (o : IsotonicObj Arr) :
    fixIsotonic hs (fixIsotonic hs o) = fixIsotonic hs o := by
  obtain ⟨iso, nx, ny, x, y, f⟩ := o
  cases hs <;> cases iso <;>
    first
      | rfl
      | (cases nx <;> cases x <;> cases ny <;> cases y <;> cases f <;> rfl)

theorem fixIsotonic_noop {Arr : Type} (hs : Bool) (o : IsotonicObj Arr)
    (h : isotonicComplete o) : fixIsotonic hs o = o := by
  obtain ⟨iso, nx, ny, x, y, f⟩ := o
  obtain ⟨hx, hy, hf⟩ := h
  cases x with
  | none => simp at hx
  | some a =>
    cases y with
    | none => simp at hy
    | some b =>
      cases f with
      | none => simp at hf
      | some p => cases hs <;> cases iso <;> cases nx <;> cases ny <;> rfl

theorem map_fixIsotonic_idem {Arr : Type} (hs : Bool) (l : List (IsotonicObj Arr)) :
    (l.map (fixIsotonic hs)).map (fixIsotonic hs) = l.map (fixIsotonic hs) := by
  rw [List.map_map]
  exact List.map_congr_left (fun i _ => fixIsotonic_idem hs i)

theorem fixCalClf_idem {Est Arr : Type} (hs : Bool) (c : CalClfObj Est Arr) :
    fixCalClf hs (fixCalClf hs c) = fixCalClf hs c := by
  obtain ⟨b, e, cu, cal⟩ := c
  cases cu <;> cases cal <;>
    simp [fixCalClf, copyAttr_self_idem, copyAttr_some_dst, copyAttr_none_dst,
      List.map_map] <;>
    exact fun a _ => fixIsotonic_idem hs a

theorem fixCalClf_noop {Est Arr : Type} (hs : Bool) (c : CalClfObj Est Arr)
    (h : calClfComplete c) : fixCalClf hs c = c := by
  obtain ⟨b, e, cu, cal⟩ := c
  obtain ⟨he, hcal⟩ := h
  cases e with
  | none => simp at he
  | some ev =>
    cases cal with
    | none =>
      have hcu : cu = none := hcal
      subst hcu
      simp [fixCalClf, copyAttr, copyAttr_some_dst]
    | some l =>
      have hmap : l.map (fixIsotonic hs) = l := by
        conv_rhs => rw [← List.map_id l]
        exact List.map_congr_left (fun i hi => fixIsotonic_noop hs i (hcal i hi))
      simp [fixCalClf, copyAttr_some_dst, hmap]

theorem fixModel_idem {Est Arr : Type} (hs : Bool) (m : CalModelObj Est Arr) :
    fixModel hs (fixModel hs m) = fixModel hs m := by
  obtain ⟨flag, b, e, cc⟩ := m
  cases hs <;> cases flag <;> try rfl
  cases cc <;>
    simp [fixModel, copyAttr_self_idem, List.map_map] <;>
    exact fun c _ => fixCalClf_idem true c

theorem fixModel_noop {Est Arr : Type} (hs : Bool) (m : CalModelObj Est Arr)
    (h : modelComplete m) : fixModel hs m = m := by
  obtain ⟨flag, b, e, cc⟩ := m
  obtain ⟨he, hcc⟩ := h
  cases e with
  | none => simp at he
  | some ev =>
    cases hs <;> cases flag <;> try rfl
    cases cc with
    | none => simp [fixModel, copyAttr_some_dst]
    | some l =>
      have hmap : l.map (fixCalClf true) = l := by
        conv_rhs => rw [← List.map_id l]
        exact List.map_congr_left (fun c hc => fixCalClf_noop true c (hcc c hc))
      simp [fixModel, copyAttr_some_dst, hmap]

theorem fixVectorizer_idem {Arr Vocab Norm : Type} (hs : Bool)
    (v : VectorizerObj Arr Vocab Norm) :
    fixVectorizer hs (fixVectorizer hs v) = fixVectorizer hs v := by
  obtain ⟨flag, i, vo, no, su, inner⟩ := v
  cases hs <;> cases flag <;> try rfl
  cases inner with
  | none => rfl
  | some tr =>
    obtain ⟨ti, tv, tn, ts⟩ := tr
    simp [fixVectorizer, copyAttr_self_idem]

theorem fixVectorizer_noop {Arr Vocab Norm : Type} (hs : Bool)
    (v : VectorizerObj Arr Vocab Norm) (tr : TransformerObj Arr Vocab Norm)
    (hi : v.inner = some tr) (h : transformerComplete tr) :
    fixVectorizer hs v = v := by
  obtain ⟨flag, i, vo, no, su, inner⟩ := v
  obtain ⟨h1, h2, h3, h4⟩ := h
  simp only at hi
  subst hi
  obtain ⟨ti, tv, tn, ts⟩ := tr
  cases ti with
  | none => simp at h1
  | some a =>
    cases tv with
    | none => simp at h2
    | some b =>
      cases tn with
      | none => simp at h3
      | some c =>
        cases ts with
        | none => simp at h4
        | some d =>
          cases hs <;> cases flag <;> simp [fixVectorizer, copyAttr_some_dst]

/-- C9.  The three post-deserialization shims (the isotonic-regression
threshold renaming and interpolation rebuild, the vectorizer fitted
attribute copy, and the calibrated-classifier estimator aliasing with its
per-fold patches) are idempotent, no-op when the model library is absent,
and no-op when the expected attributes are already present; being total
functions they never raise. -/
theorem claim_C9_shims_idempotent_noop {Est Arr Vocab Norm : Type}
    (hs : Bool) (o : IsotonicObj Arr) (v : VectorizerObj Arr Vocab Norm)
    (m : CalModelObj Est Arr) :
    (fixIsotonic hs (fixIsotonic hs o) = fixIsotonic hs o) ∧
    (fixVectorizer hs (fixVectorizer hs v) = fixVectorizer hs v) ∧
    (fixModel hs (fixModel hs m) = fixModel hs m) ∧
    (fixIsotonic false o = o) ∧
    (fixVectorizer false v = v) ∧
    (fixModel false m = m) ∧
    (isotonicComplete o → fixIsotonic hs o = o) ∧
    (∀ tr, v.inner = some tr → transformerComplete tr → fixVectorizer hs v = v) ∧
    (modelComplete m → fixModel hs m = m) := by
  refine ⟨fixIsotonic_idem hs o, fixVectorizer_idem hs v, fixModel_idem hs m,
    rfl, rfl, rfl, fixIsotonic_noop hs o, ?_, fixModel_noop hs m⟩
  intro tr hi h
  exact fixVectorizer_noop hs v tr hi h

/-- C9 witness: the theorem applied with the library present to a fully
shimmed calibrator, vectorizer and model, on which each shim is the
identity. -/
theorem claim_C9_witness :
    fixIsotonic true isoW = isoW ∧ fixVectorizer true vectW = vectW ∧
      fixModel true modelW = modelW :=
  ⟨(claim_C9_shims_idempotent_noop true isoW vectW modelW).2.2.2.2.2.2.1
      ⟨rfl, rfl, rfl⟩,
   (claim_C9_shims_idempotent_noop true isoW vectW modelW).2.2.2.2.2.2.2.1
      trW rfl ⟨rfl, rfl, rfl, rfl⟩,
   (claim_C9_shims_idempotent_noop true isoW vectW modelW).2.2.2.2.2.2.2.2
      ⟨rfl, by intro c hc; simp at hc⟩⟩

end NotNews
